import Mathlib

/-!
# Verification of the Multi-Agent AI Workflow dashboard frontend

Shallow embedding of the React admin dashboard (lead table, call logs,
data-entry logs, settings panel) and proofs about the claims of its
specification.  Each definition is translated from one place in the
JavaScript source:

* `Part002` — the enhanced Leads page (src/unnamed/part_002): leads poll,
  auto-confirm effect, make-call / retry / mark-confirmed / status-update
  mutations and their menu items.
* `LeadsJs` — the simpler Leads page (src/frontend/src/pages/Leads.js).
* `DashboardPage`, `CallLogsPage`, `DataEntryLogsPage` — the read-only
  polling views (src/frontend/src/pages/Dashboard.js, src/unnamed/part_000).
* `LayoutView` — agent status poll and agent start/stop
  (src/frontend/src/components/Layout.js).
* `SettingsPage` — the call-attempt settings editor (src/unnamed/part_001).
-/

namespace MAW

/-- HTTP method of a request issued through the axios client. -/
inductive Method
  | get
  | post
  deriving DecidableEq, Repr

/-- Shape of an endpoint: the path template with the lead id abstracted away.
One constructor per distinct endpoint appearing in the frontend source. -/
inductive ReqShape
  | getLeads
  | postLeads
  | postImportCsv
  | postMakeCall
  | postRetryCall
  | postRetryEntry
  | postMarkConfirmed
  | postLeadStatus
  | getCallLogs
  | getDataEntryLogs
  | getStatsDashboard
  | getStatsStatusBreakdown
  | getAgentsStatus
  | postAgentsStart
  | postAgentsStop
  | getCallAttemptSettings
  | postCallAttemptSettings
  deriving DecidableEq, Repr

/-- A concrete HTTP request issued by the dashboard through its API client.
Lead-specific endpoints carry the lead id; the status-update endpoint also
carries the status string sent in its body. -/
inductive Req
  | getLeads
  | postLeads
  | importCsv
  | makeCall (leadId : Nat)
  | retryCall (leadId : Nat)
  | retryEntry (leadId : Nat)
  | markConfirmed (leadId : Nat)
  | leadStatus (leadId : Nat) (status : String)
  | getCallLogs
  | getDataEntryLogs
  | getStatsDashboard
  | getStatsStatusBreakdown
  | getAgentsStatus
  | agentsStart
  | agentsStop
  | getCallAttemptSettings
  | postCallAttemptSettings
  deriving DecidableEq, Repr

/-- HTTP method used by the source for each request. -/
def reqMethod : Req → Method
  | .getLeads => .get
  | .postLeads => .post
  | .importCsv => .post
  | .makeCall _ => .post
  | .retryCall _ => .post
  | .retryEntry _ => .post
  | .markConfirmed _ => .post
  | .leadStatus _ _ => .post
  | .getCallLogs => .get
  | .getDataEntryLogs => .get
  | .getStatsDashboard => .get
  | .getStatsStatusBreakdown => .get
  | .getAgentsStatus => .get
  | .agentsStart => .post
  | .agentsStop => .post
  | .getCallAttemptSettings => .get
  | .postCallAttemptSettings => .post

/-- URL path of each request, exactly as built by the path literals and
template literals passed to the api client in the source. -/
def reqPath : Req → String
  | .getLeads => "/leads/"
  | .postLeads => "/leads/"
  | .importCsv => "/leads/import-csv/"
  | .makeCall leadId => "/leads/" ++ toString leadId ++ "/make-call"
  | .retryCall leadId => "/leads/" ++ toString leadId ++ "/retry-call"
  | .retryEntry leadId => "/leads/" ++ toString leadId ++ "/retry-entry"
  | .markConfirmed leadId => "/leads/" ++ toString leadId ++ "/mark-confirmed"
  | .leadStatus leadId _ => "/leads/" ++ toString leadId ++ "/status"
  | .getCallLogs => "/call-logs/"
  | .getDataEntryLogs => "/data-entry-logs/"
  | .getStatsDashboard => "/stats/dashboard"
  | .getStatsStatusBreakdown => "/stats/status-breakdown"
  | .getAgentsStatus => "/agents/status"
  | .agentsStart => "/agents/start"
  | .agentsStop => "/agents/stop"
  | .getCallAttemptSettings => "/settings/call-attempts"
  | .postCallAttemptSettings => "/settings/call-attempts"

/-- Shape of a concrete request (forgets the lead id and body). -/
def reqShape : Req → ReqShape
  | .getLeads => .getLeads
  | .postLeads => .postLeads
  | .importCsv => .postImportCsv
  | .makeCall _ => .postMakeCall
  | .retryCall _ => .postRetryCall
  | .retryEntry _ => .postRetryEntry
  | .markConfirmed _ => .postMarkConfirmed
  | .leadStatus _ _ => .postLeadStatus
  | .getCallLogs => .getCallLogs
  | .getDataEntryLogs => .getDataEntryLogs
  | .getStatsDashboard => .getStatsDashboard
  | .getStatsStatusBreakdown => .getStatsStatusBreakdown
  | .getAgentsStatus => .getAgentsStatus
  | .agentsStart => .postAgentsStart
  | .agentsStop => .postAgentsStop
  | .getCallAttemptSettings => .getCallAttemptSettings
  | .postCallAttemptSettings => .postCallAttemptSettings

/-- The observed REST surface listed in section 6 of the specification
(contract only).  Transcribed from the spec, to be compared with what the
source actually calls: GET/POST /leads/, POST /leads/import-csv/,
POST /leads/\x7bid\x7d/retry-call, retry-entry, mark-confirmed, status,
GET /call-logs/, /data-entry-logs/, /stats/dashboard, /stats/status-breakdown,
GET /agents/status, POST /agents/start, /agents/stop,
GET/POST /settings/call-attempts. -/
def specSurface : List ReqShape :=
  [.getLeads, .postLeads, .postImportCsv,
   .postRetryCall, .postRetryEntry, .postMarkConfirmed, .postLeadStatus,
   .getCallLogs, .getDataEntryLogs,
   .getStatsDashboard, .getStatsStatusBreakdown,
   .getAgentsStatus, .postAgentsStart, .postAgentsStop,
   .getCallAttemptSettings, .postCallAttemptSettings]

/-- A request is a mutation when the source issues it with `api.post`. -/
def isMutation (r : Req) : Bool := reqMethod r == Method.post

/-- The retry trigger endpoints. -/
def isRetryReq : Req → Bool
  | .retryCall _ => true
  | .retryEntry _ => true
  | _ => false

end MAW

namespace MAW.Part002

/-- A lead row as consumed by the enhanced Leads page (src/unnamed/part_002).
Only the fields read by the page logic appear; `call_completed_at` is an
optional string (absent models JS null/undefined). -/
structure Lead where
  id : Nat
  status : String
  call_completed_at : Option String
  status_updated_after_call : Bool
  call_successful : Bool
  deriving DecidableEq, Repr

/-- JS truthiness of an optional string field: null/undefined and the empty
string are falsy. -/
def truthyOpt : Option String → Bool
  | none => false
  | some s => s != ""

/-- Filter of the auto-update effect (part_002 lines 114-118): status equals
the string calling, `call_completed_at` is truthy, and
`status_updated_after_call` is falsy. -/
def needsStatusUpdate (l : Lead) : Bool :=
  l.status == "calling" && truthyOpt l.call_completed_at && !l.status_updated_after_call

/-- The mutation requests issued by the `useEffect` that runs on every arrival
of polled leads data (part_002 lines 111-129): for each fetched lead passing
`needsStatusUpdate`, if `call_successful` then `markConfirmedMutation.mutate`
fires `POST /leads/\x7bid\x7d/mark-confirmed`. -/
def autoUpdateRequests (leads : List Lead) : List Req :=
  let leadsNeedingUpdate := leads.filter needsStatusUpdate
  if 0 < leadsNeedingUpdate.length then
    (leadsNeedingUpdate.filter (fun l => l.call_successful)).map
      (fun l => Req.markConfirmed l.id)
  else []

/-- Response body of `POST /leads/\x7bid\x7d/make-call` as read by the client
(`response.data.call_successful`). -/
structure MakeCallResponse where
  call_successful : Bool
  deriving DecidableEq, Repr

/-- The delayed automatic confirm scheduled by `makeCallMutation.onSuccess`
(part_002 lines 182-192): if the response reports `call_successful`, a
`setTimeout` fires `markConfirmedMutation.mutate(leadId)` 2 seconds later,
with no check of the current lead status. -/
def delayedConfirm (leadId : Nat) (resp : MakeCallResponse) : Option Req :=
  if resp.call_successful then some (Req.markConfirmed leadId) else none

/-- Disabled condition of the Make Call menu item (part_002 line 549):
`makeCallMutation.isLoading` or the selected lead status equals the string
calling. -/
def makeCallItemDisabled (isLoading : Bool) (selectedLead : Lead) : Bool :=
  isLoading || selectedLead.status == "calling"

/-- Disabled condition of the Mark Confirmed menu item (part_002 line 579):
`markConfirmedMutation.isLoading` only — the selected lead is not consulted. -/
def markConfirmedItemDisabled (isLoading : Bool) (_selectedLead : Lead) : Bool :=
  isLoading

/-- Disabled condition of the Retry Call menu item (part_002 line 559). -/
def retryCallItemDisabled (isLoading : Bool) (_selectedLead : Lead) : Bool :=
  isLoading

/-- Disabled condition of the Retry Data Entry menu item (part_002
line 569). -/
def retryEntryItemDisabled (isLoading : Bool) (_selectedLead : Lead) : Bool :=
  isLoading

/-- The `statusLabels` map of part_002 (lines 56-67), in source order. -/
def statusLabels : List (String × String) :=
  [("pending", "Pending"),
   ("calling", "Calling"),
   ("confirmed", "Confirmed"),
   ("call_failed", "Call Failed"),
   ("not_interested", "Not Interested"),
   ("entry_in_progress", "Entry in Progress"),
   ("entered", "Entered"),
   ("entry_failed", "Entry Failed"),
   ("no_answer", "No Answer"),
   ("callback_requested", "Callback Requested")]

/-- The option values offered by the Select of the Status Update dialog
(part_002 lines 518-522): the keys of `Object.entries(statusLabels)`. -/
def statusUpdateOptions : List String := statusLabels.map Prod.fst

end MAW.Part002

namespace MAW.LeadsJs

/-- A lead row as consumed by the simpler Leads page
(src/frontend/src/pages/Leads.js); only the fields read by its action menu
logic appear. -/
structure Lead where
  id : Nat
  status : String
  deriving DecidableEq, Repr

/-- Disabled condition of the Mark Confirmed menu item (Leads.js line 412):
`markConfirmedMutation.isLoading` only — the selected lead is not
consulted. -/
def markConfirmedItemDisabled (isLoading : Bool) (_selectedLead : Lead) : Bool :=
  isLoading

/-- Disabled condition of the Retry Call menu item (Leads.js line 392). -/
def retryCallItemDisabled (isLoading : Bool) (_selectedLead : Lead) : Bool :=
  isLoading

/-- Disabled condition of the Retry Data Entry menu item (Leads.js
line 402). -/
def retryEntryItemDisabled (isLoading : Bool) (_selectedLead : Lead) : Bool :=
  isLoading

end MAW.LeadsJs

namespace MAW

/-- The ten lead states enumerated by the specification (section 4.1). -/
def specStatusEnum : List String :=
  ["pending", "calling", "confirmed", "call_failed", "not_interested",
   "no_answer", "callback_requested", "entry_in_progress", "entered",
   "entry_failed"]

/-- Everything in the frontend source that issues a request through the axios
API client: the fixed-interval polling queries, the mount-time settings fetch,
the operator-click mutations, and the two automatic emissions of the enhanced
Leads page (the polling-driven auto-confirm and the post-make-call delayed
confirm).  Browser navigations (`window.open` on screenshots and recordings)
go through the browser, not the API client, and are not requests of the
observed REST surface.  The two Leads pages share the click constructors for
the mutations they both define, since both build the same request. -/
inductive ClientEvent
  | pollLeadsEnhanced
  | pollLeadsBasic
  | pollCallLogs
  | pollDataEntryLogs
  | pollStatsDashboard
  | pollStatsBreakdown
  | pollAgentStatus
  | fetchSettingsOnMount
  | uploadCsvClick
  | addLeadClick
  | makeCallClick (leadId : Nat)
  | retryCallClick (leadId : Nat)
  | retryEntryClick (leadId : Nat)
  | markConfirmedClick (leadId : Nat)
  | statusUpdateClick (leadId : Nat) (status : String)
  | agentStartClick
  | agentStopClick
  | saveSettingsClick
  | autoConfirmFromPoll (leadId : Nat)
  | autoConfirmAfterMakeCall (leadId : Nat)
  deriving DecidableEq, Repr

/-- The request each client event issues, read off the corresponding
`api.get` / `api.post` call in the source. -/
def requestOf : ClientEvent → Req
  | .pollLeadsEnhanced => .getLeads
  | .pollLeadsBasic => .getLeads
  | .pollCallLogs => .getCallLogs
  | .pollDataEntryLogs => .getDataEntryLogs
  | .pollStatsDashboard => .getStatsDashboard
  | .pollStatsBreakdown => .getStatsStatusBreakdown
  | .pollAgentStatus => .getAgentsStatus
  | .fetchSettingsOnMount => .getCallAttemptSettings
  | .uploadCsvClick => .importCsv
  | .addLeadClick => .postLeads
  | .makeCallClick leadId => .makeCall leadId
  | .retryCallClick leadId => .retryCall leadId
  | .retryEntryClick leadId => .retryEntry leadId
  | .markConfirmedClick leadId => .markConfirmed leadId
  | .statusUpdateClick leadId status => .leadStatus leadId status
  | .agentStartClick => .agentsStart
  | .agentStopClick => .agentsStop
  | .saveSettingsClick => .postCallAttemptSettings
  | .autoConfirmFromPoll leadId => .markConfirmed leadId
  | .autoConfirmAfterMakeCall leadId => .markConfirmed leadId

/-- Events that are fixed-interval polling queries, mapped to their
`refetchInterval` in milliseconds as configured in the source `useQuery`
options; `none` for everything that is not a poll. -/
def refetchIntervalMs : ClientEvent → Option Nat
  | .pollLeadsEnhanced => some 3000
  | .pollLeadsBasic => some 5000
  | .pollCallLogs => some 10000
  | .pollDataEntryLogs => some 10000
  | .pollStatsDashboard => some 10000
  | .pollStatsBreakdown => some 10000
  | .pollAgentStatus => some 5000
  | _ => none

/-- Events that fire without an operator interaction: the timers of the
polling queries, the mount-time settings fetch, the polling-driven
auto-confirm effect, and the post-make-call delayed confirm. -/
def isAutomaticEvent : ClientEvent → Bool
  | .pollLeadsEnhanced => true
  | .pollLeadsBasic => true
  | .pollCallLogs => true
  | .pollDataEntryLogs => true
  | .pollStatsDashboard => true
  | .pollStatsBreakdown => true
  | .pollAgentStatus => true
  | .fetchSettingsOnMount => true
  | .autoConfirmFromPoll _ => true
  | .autoConfirmAfterMakeCall _ => true
  | _ => false

/-- An axios error as read by the `onError` handlers:
`error.response?.data?.detail` may be absent (no response or no detail) and
`error.message` is always present. -/
structure ApiError where
  detail : Option String
  message : String
  deriving DecidableEq, Repr

/-- Text interpolated by every failure handler, reading the optional response
detail with fallback to the error message: a missing or empty (falsy) detail
falls back to `message`. -/
def errorText (e : ApiError) : String :=
  match e.detail with
  | some d => if d == "" then e.message else d
  | none => e.message

/-- One substring occurrence: `t` appears inside `s`. -/
def appearsIn (t s : String) : Prop := ∃ p q, s = p ++ t ++ q

/-- Toast message of `uploadMutation.onError` (part_002 lines 147-149 and
Leads.js lines 101-103). -/
def uploadErrorToast (e : ApiError) : String :=
  "Upload failed: " ++ errorText e

/-- Toast message of `addLeadMutation.onError`. -/
def addLeadErrorToast (e : ApiError) : String :=
  "Failed to add lead: " ++ errorText e

/-- Toast message of `makeCallMutation.onError` (part_002 lines 193-195). -/
def makeCallErrorToast (e : ApiError) : String :=
  "Failed to make call: " ++ errorText e

/-- Toast message of `updateStatusMutation.onError` (part_002
lines 210-213). -/
def updateStatusErrorToast (e : ApiError) : String :=
  "Failed to update status: " ++ errorText e

/-- Toast message of `markConfirmedMutation.onError`. -/
def markConfirmedErrorToast (e : ApiError) : String :=
  "Failed to mark confirmed: " ++ errorText e

/-- Toast message of `retryCallMutation.onError`. -/
def retryCallErrorToast (e : ApiError) : String :=
  "Failed to retry call: " ++ errorText e

/-- Toast message of `retryEntryMutation.onError`. -/
def retryEntryErrorToast (e : ApiError) : String :=
  "Failed to retry entry: " ++ errorText e

/-- Toast message of `startAgentsMutation.onError` (Layout.js lines 64-66). -/
def startAgentsErrorToast (e : ApiError) : String :=
  "Failed to start agents: " ++ errorText e

/-- Toast message of `stopAgentsMutation.onError` (Layout.js lines 78-80). -/
def stopAgentsErrorToast (e : ApiError) : String :=
  "Failed to stop agents: " ++ errorText e

/-- Snackbar message of the `catch` branch of `saveCallSettings`
(part_001 lines 105-110). -/
def saveSettingsErrorSnackbar (e : ApiError) : String :=
  "Error saving settings: " ++ errorText e

end MAW

namespace MAW.SettingsPage

/-- A JavaScript value stored in one field of the `callSettings` React state.
The model keeps the JS value domain wide enough (integer number, NaN, string)
that storing the raw input string, or a NaN, would be visible. -/
inductive JsVal
  | num (n : Int)
  | nan
  | str (s : String)
  deriving DecidableEq, Repr

/-- Whether a JS value is an integer number. -/
def JsVal.isInt : JsVal → Bool
  | .num _ => true
  | _ => false

/-- Result of JavaScript `parseInt(s, 10)`: either an integer or NaN. -/
inductive ParseIntResult
  | num (n : Int)
  | nan
  deriving DecidableEq, Repr

/-- Digit run to a natural number. -/
def digitsToNat (ds : List Char) : Nat :=
  ds.foldl (fun acc c => 10 * acc + (c.toNat - '0'.toNat)) 0

/-- JavaScript `parseInt(s, 10)`: skip leading whitespace, read an optional
sign, then the longest leading run of decimal digits; NaN when that run is
empty, otherwise the signed value of the run (trailing garbage ignored). -/
def jsParseInt (s : String) : ParseIntResult :=
  let cs := s.data.dropWhile (fun c => c == ' ' || c == '\t' || c == '\n' || c == '\r')
  let signAndRest : Int × List Char :=
    match cs with
    | '-' :: r => (-1, r)
    | '+' :: r => (1, r)
    | r => (1, r)
  let ds := signAndRest.2.takeWhile Char.isDigit
  if ds.isEmpty then .nan
  else .num (signAndRest.1 * (digitsToNat ds : Int))

/-- Expression `parseInt(value, 10) || 0` (part_001 line 88): NaN and 0 are
falsy, so both yield the right operand 0; any other integer passes through. -/
def numValue (value : String) : Int :=
  match jsParseInt value with
  | .num n => if n == 0 then 0 else n
  | .nan => 0

/-- The six per-day fields of the call-attempt settings state. -/
inductive DayField
  | day1
  | day2
  | day3
  | day4
  | day5
  | day6
  deriving DecidableEq, Repr

/-- The `callSettings` React state: one JS value per day field. -/
structure CallSettings where
  day1 : JsVal
  day2 : JsVal
  day3 : JsVal
  day4 : JsVal
  day5 : JsVal
  day6 : JsVal
  deriving DecidableEq, Repr

/-- Initial `useState` value (part_001 lines 45-52). -/
def initialSettings : CallSettings :=
  { day1 := .num 5, day2 := .num 4, day3 := .num 2,
    day4 := .num 2, day5 := .num 2, day6 := .num 0 }

/-- Handler `handleCallSettingChange` (part_001 lines 87-93): spread the
previous state and overwrite the named field with the coerced number. -/
def handleCallSettingChange (day : DayField) (value : String)
    (s : CallSettings) : CallSettings :=
  match day with
  | .day1 => { s with day1 := .num (numValue value) }
  | .day2 => { s with day2 := .num (numValue value) }
  | .day3 => { s with day3 := .num (numValue value) }
  | .day4 => { s with day4 := .num (numValue value) }
  | .day5 => { s with day5 := .num (numValue value) }
  | .day6 => { s with day6 := .num (numValue value) }

/-- All six fields hold integer numbers. -/
def allInt (s : CallSettings) : Bool :=
  s.day1.isInt && s.day2.isInt && s.day3.isInt &&
  s.day4.isInt && s.day5.isInt && s.day6.isInt

/-- Settings states reachable from the initial state by a sequence of edits
(each edit is one `handleCallSettingChange` invocation; the Days 3-5 input
fires three of them).  `saveCallSettings` posts the current state verbatim,
so the saved payload is always a reachable state. -/
inductive Reachable : CallSettings → Prop
  | init : Reachable initialSettings
  | edit (day : DayField) (value : String) (s : CallSettings) :
      Reachable s → Reachable (handleCallSettingChange day value s)

/-- Body posted by `saveCallSettings` (part_001 line 98): the current
`callSettings` state, verbatim. -/
def saveCallSettingsBody (s : CallSettings) : CallSettings := s

end MAW.SettingsPage

namespace MAW.CallLogsPage

/-- JS padStart with target length 2 and pad character zero: left-pad with
zeros up to length 2. -/
def padStart2 (s : String) : String :=
  if s.length ≥ 2 then s
  else String.mk (List.replicate (2 - s.length) '0') ++ s

/-- Function formatDuration of the CallLogs view (Dashboard.js
lines 312-317): null and undefined (modelled as `none`) and 0 are falsy and
give the string N/A; otherwise minutes are `seconds / 60` rounded down and
the residue `seconds % 60` is padded to two digits. -/
def formatDuration : Option Nat → String
  | none => "N/A"
  | some seconds =>
      if seconds == 0 then "N/A"
      else toString (seconds / 60) ++ ":" ++ padStart2 (toString (seconds % 60))

/-- Zero-padding as the claim words it: the residue written with two digits. -/
def specZeroPad2 (n : Nat) : String :=
  if n < 10 then "0" ++ toString n else toString n

end MAW.CallLogsPage


namespace MAW

open Part002 SettingsPage CallLogsPage

/-- Helper: the redundant nonemptiness test in the auto-update effect can be
dropped: the effect emits one mark-confirmed request per qualifying lead. -/
theorem autoUpdateRequests_eq (leads : List Lead) :
    autoUpdateRequests leads =
      ((leads.filter needsStatusUpdate).filter (fun l => l.call_successful)).map
        (fun l => Req.markConfirmed l.id) := by
  by_cases h : 0 < (leads.filter needsStatusUpdate).length
  · simp [autoUpdateRequests, h]
  · have h0 : leads.filter needsStatusUpdate = [] := by
      cases hE : leads.filter needsStatusUpdate with
      | nil => rfl
      | cons a t => exact absurd (by rw [hE]; simp) h
    simp [autoUpdateRequests, h0]

/-- Helper: membership characterization of the auto-update emissions. -/
theorem mem_autoUpdateRequests {leads : List Lead} {r : Req} :
    r ∈ autoUpdateRequests leads ↔
      ∃ l, l ∈ leads ∧ needsStatusUpdate l = true ∧ l.call_successful = true ∧
        r = Req.markConfirmed l.id := by
  rw [autoUpdateRequests_eq]
  simp only [List.mem_map, List.mem_filter]
  constructor
  · rintro ⟨l, ⟨⟨hl, hn⟩, hc⟩, hr⟩
    exact ⟨l, hl, hn, hc, hr.symm⟩
  · rintro ⟨l, hl, hn, hc, hr⟩
    exact ⟨l, ⟨⟨hl, hn⟩, hc⟩, hr.symm⟩

/-- Helper: unfolding the filter condition of the auto-update effect. -/
theorem needsStatusUpdate_iff {l : Lead} :
    needsStatusUpdate l = true ↔
      l.status = "calling" ∧ truthyOpt l.call_completed_at = true ∧
        l.status_updated_after_call = false := by
  simp [needsStatusUpdate, Bool.and_eq_true, and_assoc]

/-- Claim C1 as stated is false: processing the data fetched by the /leads/
poll of the enhanced Leads page issues a mutation request.  Concretely, for a
fetched list holding one lead with status calling, a truthy
`call_completed_at`, `status_updated_after_call` false and `call_successful`
true, the auto-update effect fires exactly one POST mark-confirmed request,
which is a mutation. -/
theorem polling_read_issues_mutation :
    autoUpdateRequests [⟨1, "calling", some "2025-01-01T00:00:00", false, true⟩]
        = [Req.markConfirmed 1] ∧
      isMutation (Req.markConfirmed 1) = true := by
  constructor
  · rfl
  · rfl

/-- Claim C1 (amended): all polling fetches are HTTP GETs, and the one
processing path that issues requests — the auto-update effect fed by the
/leads/ poll of the enhanced Leads page — issues exactly one
POST /leads/(id)/mark-confirmed per fetched lead with status calling, a
truthy completed-call timestamp, the updated-after-call flag unset, and a
successful call; it issues nothing else. -/
theorem leads_poll_processing_characterized :
    (∀ e : ClientEvent, refetchIntervalMs e ≠ none →
      reqMethod (requestOf e) = Method.get) ∧
    (∀ leads r, r ∈ autoUpdateRequests leads →
      reqShape r = ReqShape.postMarkConfirmed ∧
      ∃ l, l ∈ leads ∧ l.status = "calling" ∧
        truthyOpt l.call_completed_at = true ∧
        l.status_updated_after_call = false ∧ l.call_successful = true ∧
        r = Req.markConfirmed l.id) ∧
    (∀ leads l, l ∈ leads → needsStatusUpdate l = true →
      l.call_successful = true →
      Req.markConfirmed l.id ∈ autoUpdateRequests leads) := by
  refine ⟨?_, ?_, ?_⟩
  · intro e h
    cases e <;> simp [refetchIntervalMs] at h ⊢ <;> rfl
  · intro leads r hr
    rcases mem_autoUpdateRequests.mp hr with ⟨l, hl, hn, hc, hEq⟩
    rcases needsStatusUpdate_iff.mp hn with ⟨hst, htr, hup⟩
    exact ⟨by rw [hEq]; rfl, l, hl, hst, htr, hup, hc, hEq⟩
  · intro leads l hl hn hc
    exact mem_autoUpdateRequests.mpr ⟨l, hl, hn, hc, rfl⟩

/-- Witness for the amended claim C1 at concrete inputs. -/
theorem leads_poll_processing_characterized_witness :
    reqMethod (requestOf ClientEvent.pollCallLogs) = Method.get ∧
    Req.markConfirmed 4 ∈
      autoUpdateRequests [⟨4, "calling", some "t", false, true⟩] :=
  ⟨leads_poll_processing_characterized.1 ClientEvent.pollCallLogs (by decide),
   leads_poll_processing_characterized.2.2
     [⟨4, "calling", some "t", false, true⟩]
     ⟨4, "calling", some "t", false, true⟩ (by decide) (by decide) rfl⟩

/-- Claim C2 as stated is false: the Make Call menu item of the enhanced
Leads page is a user action that issues POST /leads/(id)/make-call, an
endpoint absent from the observed REST surface of the specification.  The
item is enabled for a pending lead when no request is in flight. -/
theorem make_call_outside_spec_surface :
    reqShape (requestOf (ClientEvent.makeCallClick 7)) ∉ specSurface ∧
    reqPath (requestOf (ClientEvent.makeCallClick 7)) = "/leads/7/make-call" ∧
    makeCallItemDisabled false ⟨7, "pending", none, false, false⟩ = false := by
  refine ⟨by decide, by decide, by decide⟩

/-- Claim C2 (amended): every request the dashboard issues through its API
client has an endpoint in the observed REST surface of the specification,
except POST /leads/(id)/make-call, which the enhanced Leads page also
issues. -/
theorem client_requests_in_surface_or_make_call :
    ∀ e : ClientEvent,
      reqShape (requestOf e) ∈ specSurface ∨
      reqShape (requestOf e) = ReqShape.postMakeCall := by
  intro e
  cases e <;> simp [requestOf, reqShape, specSurface]

/-- Claim C3: the Mark Confirmed menu item applies no guard on the current
lead status — in both Leads pages its disabled condition is exactly the
in-flight flag of the mutation, independent of the selected lead — and a
click issues POST /leads/(id)/mark-confirmed for the selected lead. -/
theorem mark_confirmed_no_status_guard :
    (∀ (isLoading : Bool) (l : Part002.Lead),
      Part002.markConfirmedItemDisabled isLoading l = isLoading) ∧
    (∀ (isLoading : Bool) (l : LeadsJs.Lead),
      LeadsJs.markConfirmedItemDisabled isLoading l = isLoading) ∧
    (∀ leadId, requestOf (ClientEvent.markConfirmedClick leadId)
        = Req.markConfirmed leadId ∧
      reqShape (Req.markConfirmed leadId) = ReqShape.postMarkConfirmed ∧
      reqMethod (Req.markConfirmed leadId) = Method.post) :=
  ⟨fun _ _ => rfl, fun _ _ => rfl, fun _ => ⟨rfl, rfl, rfl⟩⟩

/-- Claim C4 as stated is false: the post-make-call delayed confirm can
target a lead whose status is entered.  The Make Call menu item is enabled
for a lead in status entered (only the calling status disables it); when the
make-call response reports a successful call, the timed automatic confirm
fires POST /leads/(id)/mark-confirmed for that lead. -/
theorem delayed_confirm_targets_entered_lead :
    makeCallItemDisabled false ⟨3, "entered", none, false, false⟩ = false ∧
    delayedConfirm 3 ⟨true⟩ = some (Req.markConfirmed 3) ∧
    isAutomaticEvent (ClientEvent.autoConfirmAfterMakeCall 3) = true := by
  refine ⟨by decide, by decide, by decide⟩

/-- Claim C4 (amended): the polling-driven auto-confirm effect only targets
leads whose fetched status is calling — hence never one in entered or
not_interested — but the post-make-call delayed confirm applies no status
guard: the Make Call item is disabled exactly for leads whose status is
calling, and whenever the response reports a successful call the delayed
mark-confirmed fires for the called lead, whatever its status. -/
theorem automatic_transitions_only_from_calling_poll :
    (∀ leads r, r ∈ autoUpdateRequests leads →
      ∃ l, l ∈ leads ∧ l.status = "calling" ∧ r = Req.markConfirmed l.id) ∧
    (∀ l : Lead, makeCallItemDisabled false l = (l.status == "calling")) ∧
    (∀ leadId resp, resp.call_successful = true →
      delayedConfirm leadId resp = some (Req.markConfirmed leadId)) := by
  refine ⟨?_, ?_, ?_⟩
  · intro leads r hr
    rcases mem_autoUpdateRequests.mp hr with ⟨l, hl, hn, _, hEq⟩
    exact ⟨l, hl, (needsStatusUpdate_iff.mp hn).1, hEq⟩
  · intro l
    simp [makeCallItemDisabled]
  · intro leadId resp h
    simp [delayedConfirm, h]

/-- Witness for the amended claim C4 at concrete inputs. -/
theorem automatic_transitions_only_from_calling_poll_witness :
    (∃ l, l ∈ ([⟨9, "calling", some "t", false, true⟩] : List Lead) ∧
      l.status = "calling" ∧ Req.markConfirmed 9 = Req.markConfirmed l.id) ∧
    delayedConfirm 9 ⟨true⟩ = some (Req.markConfirmed 9) :=
  ⟨automatic_transitions_only_from_calling_poll.1
      [⟨9, "calling", some "t", false, true⟩] (Req.markConfirmed 9) (by decide),
   automatic_transitions_only_from_calling_poll.2.2 9 ⟨true⟩ rfl⟩

/-- Claim C5: a retry request is issued only by a click on the corresponding
menu item: any client event whose request is a retry is a retry-call or
retry-entry click; no automatic event (poll timer, mount fetch, auto-confirm
effect, delayed confirm) issues a retry; neither emission mechanism of the
enhanced Leads page can produce a retry request. -/
theorem no_automatic_retry :
    (∀ e : ClientEvent, isRetryReq (requestOf e) = true →
      (∃ leadId, e = ClientEvent.retryCallClick leadId) ∨
      (∃ leadId, e = ClientEvent.retryEntryClick leadId)) ∧
    (∀ e : ClientEvent, isAutomaticEvent e = true →
      isRetryReq (requestOf e) = false) ∧
    (∀ leads r, r ∈ autoUpdateRequests leads → isRetryReq r = false) ∧
    (∀ leadId resp r, delayedConfirm leadId resp = some r →
      isRetryReq r = false) := by
  refine ⟨?_, ?_, ?_, ?_⟩
  · intro e h
    cases e <;> simp [requestOf, isRetryReq] at h ⊢
  · intro e h
    cases e <;> simp [requestOf, isRetryReq, isAutomaticEvent] at h ⊢
  · intro leads r hr
    rcases mem_autoUpdateRequests.mp hr with ⟨l, _, _, _, hEq⟩
    rw [hEq]
    rfl
  · intro leadId resp r h
    rcases resp with ⟨b⟩
    cases b <;> simp [delayedConfirm] at h
    rw [← h]
    rfl

/-- Witness for claim C5 at concrete inputs. -/
theorem no_automatic_retry_witness :
    ((∃ leadId, ClientEvent.retryCallClick 2 = ClientEvent.retryCallClick leadId) ∨
      (∃ leadId, ClientEvent.retryCallClick 2 = ClientEvent.retryEntryClick leadId)) ∧
    isRetryReq (requestOf (ClientEvent.autoConfirmFromPoll 2)) = false :=
  ⟨no_automatic_retry.1 (ClientEvent.retryCallClick 2) (by decide),
   no_automatic_retry.2.1 (ClientEvent.autoConfirmFromPoll 2) (by decide)⟩

/-- Claim C6: every failure handler of the mutations (CSV upload, add lead,
make call, retry call, retry entry, mark confirmed, status update, agent
start, agent stop, settings save) is a total function producing a transient
notification whose text contains the response detail when present and
non-empty, and the error message otherwise; no handler aborts. -/
theorem mutation_failures_surface_error_text :
    ∀ e : ApiError,
      appearsIn (errorText e) (uploadErrorToast e) ∧
      appearsIn (errorText e) (addLeadErrorToast e) ∧
      appearsIn (errorText e) (makeCallErrorToast e) ∧
      appearsIn (errorText e) (updateStatusErrorToast e) ∧
      appearsIn (errorText e) (markConfirmedErrorToast e) ∧
      appearsIn (errorText e) (retryCallErrorToast e) ∧
      appearsIn (errorText e) (retryEntryErrorToast e) ∧
      appearsIn (errorText e) (startAgentsErrorToast e) ∧
      appearsIn (errorText e) (stopAgentsErrorToast e) ∧
      appearsIn (errorText e) (saveSettingsErrorSnackbar e) := by
  intro e
  exact ⟨⟨"Upload failed: ", "", by simp [uploadErrorToast]⟩,
    ⟨"Failed to add lead: ", "", by simp [addLeadErrorToast]⟩,
    ⟨"Failed to make call: ", "", by simp [makeCallErrorToast]⟩,
    ⟨"Failed to update status: ", "", by simp [updateStatusErrorToast]⟩,
    ⟨"Failed to mark confirmed: ", "", by simp [markConfirmedErrorToast]⟩,
    ⟨"Failed to retry call: ", "", by simp [retryCallErrorToast]⟩,
    ⟨"Failed to retry entry: ", "", by simp [retryEntryErrorToast]⟩,
    ⟨"Failed to start agents: ", "", by simp [startAgentsErrorToast]⟩,
    ⟨"Failed to stop agents: ", "", by simp [stopAgentsErrorToast]⟩,
    ⟨"Error saving settings: ", "", by simp [saveSettingsErrorSnackbar]⟩⟩

/-- Claim C7: the option values offered by the Update Status dialog are a
permutation of the ten states enumerated by the specification — every option
is a member of the enumeration and every member is offered, each exactly
once. -/
theorem status_options_match_spec_enum :
    statusUpdateOptions.Perm specStatusEnum := by
  decide

/-- Claim C8: every settings state reachable from the initial state by edits
holds an integer number in each of the six day fields, as does the body
posted by the save action from such a state; moreover the handler coerces
empty and non-numeric input to the integer 0. -/
theorem settings_fields_always_integers :
    (∀ s, Reachable s → allInt s = true) ∧
    (∀ s, Reachable s → allInt (saveCallSettingsBody s) = true) ∧
    numValue "" = 0 ∧ numValue "abc" = 0 ∧ numValue "7" = 7 := by
  have main : ∀ s, Reachable s → allInt s = true := by
    intro s h
    induction h with
    | init => decide
    | edit day value s hs ih =>
      cases day <;>
        simp only [handleCallSettingChange, allInt, JsVal.isInt,
          Bool.and_eq_true] at ih ⊢ <;>
        simp_all
  exact ⟨main, fun s h => main s h, by decide, by decide, by decide⟩

/-- Witness for claim C8 at a concrete reachable state. -/
theorem settings_fields_always_integers_witness :
    allInt (handleCallSettingChange DayField.day3 "12"
      (handleCallSettingChange DayField.day6 "x" initialSettings)) = true :=
  settings_fields_always_integers.1 _
    (Reachable.edit DayField.day3 "12" _
      (Reachable.edit DayField.day6 "x" _ Reachable.init))

/-- Claim C9: each polling query refetches on the fixed interval configured
in the source — the enhanced leads view every 3 seconds and the basic one
every 5, agent status every 5, and the dashboard stats, status breakdown,
call logs and data-entry logs views every 10 — and every configured interval
lies between 3 and 10 seconds inclusive. -/
theorem poll_intervals_in_range :
    refetchIntervalMs ClientEvent.pollLeadsEnhanced = some 3000 ∧
    refetchIntervalMs ClientEvent.pollLeadsBasic = some 5000 ∧
    refetchIntervalMs ClientEvent.pollAgentStatus = some 5000 ∧
    refetchIntervalMs ClientEvent.pollStatsDashboard = some 10000 ∧
    refetchIntervalMs ClientEvent.pollStatsBreakdown = some 10000 ∧
    refetchIntervalMs ClientEvent.pollCallLogs = some 10000 ∧
    refetchIntervalMs ClientEvent.pollDataEntryLogs = some 10000 ∧
    ∀ e i, refetchIntervalMs e = some i → 3000 ≤ i ∧ i ≤ 10000 := by
  refine ⟨rfl, rfl, rfl, rfl, rfl, rfl, rfl, ?_⟩
  intro e i h
  cases e <;> simp [refetchIntervalMs] at h <;> omega

/-- Witness for claim C9 at a concrete poll. -/
theorem poll_intervals_in_range_witness : 3000 ≤ 3000 ∧ 3000 ≤ 10000 :=
  poll_intervals_in_range.2.2.2.2.2.2.2 ClientEvent.pollLeadsEnhanced 3000 rfl

/-- Helper: for any residue below 60, JS padStart agrees with writing the
number with two digits. -/
theorem padStart2_toString_eq_specZeroPad2 :
    ∀ m < 60, padStart2 (toString m) = specZeroPad2 m := by
  decide

/-- Claim C10: the call-log duration formatter returns N/A on null, undefined
and 0, and for every positive number of seconds returns the minutes followed
by a colon and the residue seconds zero-padded to two digits. -/
theorem format_duration_spec :
    formatDuration none = "N/A" ∧
    formatDuration (some 0) = "N/A" ∧
    ∀ s : Nat, 0 < s →
      formatDuration (some s) =
        toString (s / 60) ++ ":" ++ specZeroPad2 (s % 60) := by
  refine ⟨rfl, rfl, ?_⟩
  intro s hs
  have hne : (s == 0) = false := by
    simp [Nat.pos_iff_ne_zero.mp hs]
  rw [formatDuration, hne]
  simp only [Bool.false_eq_true, if_false]
  rw [padStart2_toString_eq_specZeroPad2 (s % 60) (Nat.mod_lt s (by norm_num))]

/-- Witness for claim C10 at 61 seconds. -/
theorem format_duration_spec_witness :
    formatDuration (some 61) =
      toString (61 / 60) ++ ":" ++ specZeroPad2 (61 % 60) :=
  format_duration_spec.2.2 61 (by decide)
